import Mathlib

/-!
Verification development for the Lightning-Address invoice generator.

The repository contains two Python variants of the same LNURL-pay pipeline:

* a CLI script (`get_payurl`, `get_url`, `get_bolt11` in
  lightning-address-invoice-generator.py), and
* a tutorial script (`build_lnurl_pay_url`, `fetch_payment_parameters`,
  `generate_invoice`, `create_lightning_invoice` in ln-address-tutorial.py).

The embedding below follows the Python source line by line.  External
collaborators are modeled as parameters:

* `json.loads` is a parameter `parse : String → Option Jobj`
  (`none` means the body is not a JSON object, i.e. `json.loads` raises);
* `requests.get` is a parameter `net : String → Except PyExc HttpResponse`
  (`Except.error` means the transport raised; a non-2xx status does NOT
  raise, matching `requests` without `raise_for_status`).

Stateful effects are made explicit: each pipeline function returns, next to
its Python return value, the list of URL strings actually handed to the
HTTP transport, so that "no network request was issued" is a statement
about that list.  Python exceptions are values of `PyExc`; an exception
that escapes a function is an `uncaught` outcome.
-/

namespace LnAddr

/-- Python exceptions that can arise in this pipeline. -/
inductive PyExc where
  | valueError (msg : String)
  | keyError (k : String)
  | typeError
  | attributeError
  | nameError (v : String)
  | jsonDecodeError
  | requestError
deriving Repr, DecidableEq

/-- Model of a `requests` response: the status code and the body text.
The scripts only ever read these two attributes. -/
structure HttpResponse where
  status : Nat
  text : String
deriving Repr, DecidableEq

/-- JSON values as far as the scripts inspect them: the fields they read
are strings (`callback`, `pr`, `reason`) and integers (`minSendable`,
`maxSendable`). -/
inductive JVal where
  | str (s : String)
  | int (n : Int)
deriving Repr, DecidableEq

/-- A parsed JSON object: an association list of fields. -/
abbrev Jobj := List (String × JVal)

/-- Python dictionary lookup `d.get(k)`: `none` when the key is absent. -/
def jfind (o : Jobj) (k : String) : Option JVal :=
  match o with
  | [] => none
  | (k2, v) :: rest => if k2 = k then some v else jfind rest k

/-- Python `str(x)` applied to a JSON value. -/
def jstr : JVal → String
  | .str s => s
  | .int n => toString n

/-- Python `str.split(sep)` with a one-character separator, on the
character list: `""` splits to `[""]`, `"a@@b"` to `["a","","b"]`. -/
def splitChars (sep : Char) : List Char → List (List Char)
  | [] => [[]]
  | c :: cs =>
    match splitChars sep cs with
    | [] => [[]]
    | p :: ps => if c = sep then [] :: p :: ps else (c :: p) :: ps

/-- Python `s.split(sep)` for a one-character separator. -/
def pySplit (sep : Char) (s : String) : List String :=
  (splitChars sep s.data).map String.mk

/-- Python `str.upper()` (ASCII letters; BOLT11 strings are ASCII). -/
def pyUpper (s : String) : String := String.mk (s.data.map Char.toUpper)

/-- Decimal digits to a number, `none` on a non-digit. -/
def digitsToNat (acc : Nat) : List Char → Option Nat
  | [] => some acc
  | c :: cs =>
    if '0' ≤ c ∧ c ≤ '9' then digitsToNat (acc * 10 + (c.toNat - '0'.toNat)) cs
    else none

/-- Python `int(s)` on a plain decimal string literal, `none` when
`int` would raise `ValueError`. -/
def pyIntOfString (s : String) : Option Int :=
  match s.data with
  | [] => none
  | '-' :: cs =>
    match cs with
    | [] => none
    | _ => (digitsToNat 0 cs).map (fun n => -(n : Int))
  | '+' :: cs =>
    match cs with
    | [] => none
    | _ => (digitsToNat 0 cs).map (fun n => (n : Int))
  | cs => (digitsToNat 0 cs).map (fun n => (n : Int))

/-- Python `int(x)` applied to a JSON value: identity on integers,
decimal parsing on strings (raising `ValueError` on failure). -/
def pyInt : JVal → Except PyExc Int
  | .int n => .ok n
  | .str s =>
    match pyIntOfString s with
    | some n => .ok n
    | none => .error (.valueError "invalid literal for int() with base 10")

/-- Result of `get_payurl`: either the transformed URL string, or the
error dictionary returned from its `except` branch. -/
inductive PayurlResult where
  | url (u : String)
  | errorDict (msg : String)
deriving Repr, DecidableEq

/-- Embedding of `get_payurl` (CLI script, lines 9-19).  The source splits
on the at sign and reads `parts[1]` and `parts[0]`; the only possible
exception is the `IndexError` from `parts[1]` when there is no at sign,
which the handler turns into the error dictionary.  Extra parts beyond the
first two are ignored, exactly as in the source. -/
def get_payurl (lnaddress : String) : PayurlResult :=
  match pySplit '@' lnaddress with
  | p0 :: p1 :: _ => .url ("https://" ++ p1 ++ "/.well-known/lnurlp/" ++ p0)
  | _ => .errorDict "Possibly a malformed LN Address"

/-- A Python return value of `get_bolt11`: a string (invoice or reason),
an integer (a non-string `reason` field is returned as is), the implicit
`None` when the final `if`/`elif` both fail, or the handler's error
dictionary `\x7b'status': ..., 'msg': ...\x7d`. -/
inductive PyRet where
  | str (s : String)
  | intv (n : Int)
  | noneV
  | dict (status msg : String)
deriving Repr, DecidableEq

/-- How one call of `get_bolt11` ends: a plain return, a return from the
`except` handler after catching exception `e`, or an exception escaping
the function uncaught. -/
inductive GetBoltOutcome where
  | returns (v : PyRet)
  | caughtReturn (e : PyExc) (v : PyRet)
  | uncaught (e : PyExc)
deriving Repr, DecidableEq

/-- The message built by the `except` handler of `get_bolt11` (source
line 65), for integer `min_amount` and `max_amount`; Python `//` is floor
division, hence `Int.fdiv`. -/
def cliErrMsg (lnaddress : String) (m M : Int) : String :=
  "Cannot make a Bolt11, are you sure the address `" ++ lnaddress ++
    "` is valid and the amount withing the allowed range [" ++
    toString (Int.fdiv m 1000) ++ "; " ++ toString (Int.fdiv M 1000) ++ "] Satoshi?"

/-- The `except` handler of `get_bolt11` (lines 63-65), catching `e`.  Its
message mentions `min_amount // 1000` and `max_amount // 1000`, evaluated
left to right, so it raises `NameError` itself when the exception occurred
before the variable was assigned (`mn`/`mx` is `none` here), and
`TypeError` when the assigned JSON value is not an integer. -/
def cliHandler (e : PyExc) (lnaddress : String) (mn mx : Option JVal) : GetBoltOutcome :=
  match mn with
  | none => .uncaught (.nameError "min_amount")
  | some (.str _) => .uncaught .typeError
  | some (.int m) =>
    match mx with
    | none => .uncaught (.nameError "max_amount")
    | some (.str _) => .uncaught .typeError
    | some (.int M) => .caughtReturn e (.dict "error" (cliErrMsg lnaddress m M))

/-- Lines 38-46 of `get_bolt11`: choose the `payquery` string, or leave
through the handler.  `cbs` is the callback (already known to be a
string, line 38 would raise `TypeError` otherwise), `mn`/`mx` the values
of `minSendable`/`maxSendable`.  On line 41 the comparison
`amount_msat > max_amount` raises `TypeError` for a non-integer
`max_amount`; on line 43 `int(min_amount)` may raise `ValueError`. -/
def cliPayquery (lnaddress cbs : String) (mn mx : JVal) (amount : Option Int) :
    GetBoltOutcome ⊕ String :=
  match amount with
  | none => .inr (cbs ++ "?amount=" ++ jstr mn)
  | some a =>
    let amount_msat := a * 1000
    match mx with
    | .str _ => .inl (cliHandler .typeError lnaddress (some mn) (some mx))
    | .int M =>
      if amount_msat > M then
        .inl (cliHandler (.valueError "Amount is more than maximum sendable")
          lnaddress (some mn) (some mx))
      else
        match pyInt mn with
        | .error e => .inl (cliHandler e lnaddress (some mn) (some mx))
        | .ok m =>
          if amount_msat ≥ m then .inr (cbs ++ "?amount=" ++ toString amount_msat)
          else
            .inl (cliHandler
              (.valueError
                "Amount is less than minimum sendable, you may pay in more than a single invoice")
              lnaddress (some mn) (some mx))

/-- Lines 51-61 of `get_bolt11`: issue the invoice request and interpret
the response.  A string `pr` field is uppercased and returned; a
non-string `pr` makes `.upper()` raise `AttributeError`; otherwise a
`reason` field is returned as is; with neither field the function falls
off the `if`/`elif` and returns `None`.  The second component lists the
URLs handed to the transport so far. -/
def cliInvoiceStep (parse : String → Option Jobj) (net : String → Except PyExc HttpResponse)
    (lnaddress purl payquery : String) (mn mx : JVal) : GetBoltOutcome × List String :=
  match net payquery with
  | .error e => (cliHandler e lnaddress (some mn) (some mx), [purl, payquery])
  | .ok resp2 =>
    match parse resp2.text with
    | none => (cliHandler .jsonDecodeError lnaddress (some mn) (some mx), [purl, payquery])
    | some pr_dict =>
      match jfind pr_dict "pr" with
      | some (.str bolt11) => (.returns (.str (pyUpper bolt11)), [purl, payquery])
      | some (.int _) => (cliHandler .attributeError lnaddress (some mn) (some mx), [purl, payquery])
      | none =>
        match jfind pr_dict "reason" with
        | some (.str reason) => (.returns (.str reason), [purl, payquery])
        | some (.int reason) => (.returns (.intv reason), [purl, payquery])
        | none => (.returns .noneV, [purl, payquery])

/-- Embedding of `get_bolt11` (CLI script, lines 25-65).  Note that the
HTTP status of either response is never inspected (`get_url` returns
`response.text` only).  When `get_payurl` returned its error dictionary,
`requests.get(path=dict)` raises while preparing the URL, before anything
reaches the transport, hence the empty request list in that branch. -/
def get_bolt11 (parse : String → Option Jobj) (net : String → Except PyExc HttpResponse)
    (lnaddress : String) (amount : Option Int) : GetBoltOutcome × List String :=
  match get_payurl lnaddress with
  | .errorDict _ => (cliHandler .requestError lnaddress none none, [])
  | .url purl =>
    match net purl with
    | .error e => (cliHandler e lnaddress none none, [purl])
    | .ok resp1 =>
      match parse resp1.text with
      | none => (cliHandler .jsonDecodeError lnaddress none none, [purl])
      | some datablock =>
        match jfind datablock "callback" with
        | none => (cliHandler (.keyError "callback") lnaddress none none, [purl])
        | some lnurlpay =>
          match jfind datablock "minSendable" with
          | none => (cliHandler (.keyError "minSendable") lnaddress none none, [purl])
          | some mn =>
            match jfind datablock "maxSendable" with
            | none => (cliHandler (.keyError "maxSendable") lnaddress (some mn) none, [purl])
            | some mx =>
              match lnurlpay with
              | .int _ => (cliHandler .typeError lnaddress (some mn) (some mx), [purl])
              | .str cbs =>
                match cliPayquery lnaddress cbs mn mx amount with
                | .inl out => (out, [purl])
                | .inr payquery => cliInvoiceStep parse net lnaddress purl payquery mn mx

/-- Embedding of `build_lnurl_pay_url` (tutorial script, lines 21-52):
`None` unless the split at the at sign yields exactly two parts. -/
def build_lnurl_pay_url (lightning_address : String) : Option String :=
  match pySplit '@' lightning_address with
  | [username, domain] => some ("https://" ++ domain ++ "/.well-known/lnurlp/" ++ username)
  | _ => none

/-- How `fetch_payment_parameters` ends: the returned parameter
dictionary (`callback` may be absent or any value; `minSendable` and
`maxSendable` are integers, see below), the `None` return on a non-200
status, or an uncaught exception. -/
inductive FetchOutcome where
  | params (callback : Option JVal) (minSendable maxSendable : Int)
  | noneRet
  | uncaught (e : PyExc)
deriving Repr, DecidableEq

/-- Lines 68-92 of `fetch_payment_parameters`, applied to the result of
`requests.get`: the tutorial has no `try` at all, so a transport error or
a `json.loads` failure escapes uncaught; the prints on lines 85-86 divide
`min_sendable/1000` and then `max_sendable/1000`, raising `TypeError`
when the field is absent (`None`) or not a number. -/
def fetchResult (parse : String → Option Jobj) (response : Except PyExc HttpResponse) :
    FetchOutcome :=
  match response with
  | .error e => .uncaught e
  | .ok resp =>
    if resp.status ≠ 200 then .noneRet
    else
      match parse resp.text with
      | none => .uncaught .jsonDecodeError
      | some payment_params =>
        match jfind payment_params "minSendable" with
        | some (.int mn) =>
          match jfind payment_params "maxSendable" with
          | some (.int mx) => .params (jfind payment_params "callback") mn mx
          | _ => .uncaught .typeError
        | _ => .uncaught .typeError

/-- Embedding of `fetch_payment_parameters` (tutorial script, lines
54-92).  Exactly one GET is issued, to the discovery URL. -/
def fetch_payment_parameters (parse : String → Option Jobj)
    (net : String → Except PyExc HttpResponse) (discovery_url : String) :
    FetchOutcome × List String :=
  (fetchResult parse (net discovery_url), [discovery_url])

/-- How `generate_invoice` ends: the uppercased invoice string, the
`None` returned on a non-200 status, a `reason` response or an
unrecognized response, or an uncaught exception. -/
inductive GenOutcome where
  | someStr (s : String)
  | noneRet
  | uncaught (e : PyExc)
deriving Repr, DecidableEq

/-- Python f-string interpolation of the callback value as it appears in
`f"\x7bcallback_url\x7d?amount=..."`: `None` prints as `"None"`. -/
def fstr : Option JVal → String
  | none => "None"
  | some v => jstr v

/-- Lines 117-142 of `generate_invoice`, applied to the result of
`requests.get` on the invoice request URL: non-200 returns `None`; a
string `pr` field is uppercased and returned; a non-string `pr` makes
`.upper()` raise `AttributeError`; a `reason` response and an
unrecognized response both print a message and return `None`. -/
def genResult (parse : String → Option Jobj) (response : Except PyExc HttpResponse) :
    GenOutcome :=
  match response with
  | .error e => .uncaught e
  | .ok resp =>
    if resp.status ≠ 200 then .noneRet
    else
      match parse resp.text with
      | none => .uncaught .jsonDecodeError
      | some invoice_response =>
        match jfind invoice_response "pr" with
        | some (.str bolt11_invoice) => .someStr (pyUpper bolt11_invoice)
        | some (.int _) => .uncaught .attributeError
        | none =>
          match jfind invoice_response "reason" with
          | some _ => .noneRet
          | none => .noneRet

/-- Embedding of `generate_invoice` (tutorial script, lines 94-142).
Note the signature: the function receives only `callback_url`,
`amount_sats` and `min_sendable`, exactly as in the source —
`maxSendable` is never passed to it.  The requested amount is
`max(amount_millisats, min_sendable)` (line 109) and exactly one GET is
issued, to the resulting URL. -/
def generate_invoice (parse : String → Option Jobj)
    (net : String → Except PyExc HttpResponse) (callback_url : Option JVal)
    (amount_sats min_sendable : Int) : GenOutcome × List String :=
  let amount_millisats := amount_sats * 1000
  let final_amount := max amount_millisats min_sendable
  let invoice_request_url := fstr callback_url ++ "?amount=" ++ toString final_amount
  (genResult parse (net invoice_request_url), [invoice_request_url])

/-- Embedding of `create_lightning_invoice` (tutorial script, lines
144-169): the three steps in sequence, each `None`/falsy result ending
the pipeline early.  `payment_params['callback']` and
`payment_params['minSendable']` always exist on the dictionary
`fetch_payment_parameters` builds. -/
def create_lightning_invoice (parse : String → Option Jobj)
    (net : String → Except PyExc HttpResponse) (lightning_address : String)
    (amount_sats : Int) : GenOutcome × List String :=
  match build_lnurl_pay_url lightning_address with
  | none => (.noneRet, [])
  | some discovery_url =>
    match fetch_payment_parameters parse net discovery_url with
    | (.uncaught e, log) => (.uncaught e, log)
    | (.noneRet, log) => (.noneRet, log)
    | (.params cb mn _, log) =>
      let r := generate_invoice parse net cb amount_sats mn
      (r.1, log ++ r.2)

/-! ### Test fixtures

Concrete `parse`/`net` functions used by the witnesses and
counterexamples below.  `pT` parses two fixed bodies; `nT` answers the
two URLs the happy path of the pipeline visits for `user@x.com`. -/

/-- A concrete `json.loads` knowing two bodies: a discovery response and
a successful invoice response. -/
def pT : String → Option Jobj := fun b =>
  if b = "DISCBODY" then
    some [("callback", .str "https://svc/cb"), ("minSendable", .int 1000),
      ("maxSendable", .int 100000000)]
  else if b = "INVBODY" then some [("pr", .str "lnbc1xyz")]
  else if b = "REASONBODY" then some [("reason", .str "rejected")]
  else if b = "UPREASONBODY" then some [("reason", .str "LNBC1XYZ")]
  else if b = "EMPTYBODY" then some []
  else none

/-- A concrete transport for the happy path of `user@x.com`, amount 5. -/
def nT : String → Except PyExc HttpResponse := fun u =>
  if u = "https://x.com/.well-known/lnurlp/user" then .ok ⟨200, "DISCBODY"⟩
  else if u = "https://svc/cb?amount=5000" then .ok ⟨200, "INVBODY"⟩
  else .error .requestError

/-- A transport whose invoice response carries only a `reason` field. -/
def nReason : String → Except PyExc HttpResponse := fun u =>
  if u = "https://x.com/.well-known/lnurlp/user" then .ok ⟨200, "DISCBODY"⟩
  else if u = "https://svc/cb?amount=5000" then .ok ⟨200, "REASONBODY"⟩
  else .error .requestError

/-- A transport whose invoice response has a `reason` field that looks
exactly like an uppercased invoice. -/
def nUpReason : String → Except PyExc HttpResponse := fun u =>
  if u = "https://x.com/.well-known/lnurlp/user" then .ok ⟨200, "DISCBODY"⟩
  else if u = "https://svc/cb?amount=5000" then .ok ⟨200, "UPREASONBODY"⟩
  else .error .requestError

/-- A transport whose invoice response is a JSON object with neither a
`pr` nor a `reason` field. -/
def nEmptyInv : String → Except PyExc HttpResponse := fun u =>
  if u = "https://x.com/.well-known/lnurlp/user" then .ok ⟨200, "DISCBODY"⟩
  else if u = "https://svc/cb?amount=5000" then .ok ⟨200, "EMPTYBODY"⟩
  else .error .requestError

/-- A transport answering the clamped invoice URL of the too-low-amount
scenario (1 sat against minSendable 2000 msats) with a valid invoice. -/
def nClamp : String → Except PyExc HttpResponse := fun u =>
  if u = "https://svc/cb?amount=2000" then .ok ⟨200, "INVBODY"⟩
  else .error .requestError

/-- A transport answering every URL with status 404 and a body that is
not JSON. -/
def n404 : String → Except PyExc HttpResponse := fun _ => .ok ⟨404, "Not Found"⟩

/-- A transport answering the discovery URL with status 404 but a
well-formed discovery body, and the invoice URL normally. -/
def n404Body : String → Except PyExc HttpResponse := fun u =>
  if u = "https://x.com/.well-known/lnurlp/user" then .ok ⟨404, "DISCBODY"⟩
  else if u = "https://svc/cb?amount=5000" then .ok ⟨200, "INVBODY"⟩
  else .error .requestError

/-- A transport answering everything with status 200 and a non-JSON body. -/
def n200Junk : String → Except PyExc HttpResponse := fun _ => .ok ⟨200, "Not Found"⟩

/-! ### Helper lemmas about the split -/

/-- Appending strings concatenates their character lists. -/
theorem sdata_append (s t : String) : (s ++ t).data = s.data ++ t.data := rfl

/-- The split of any character list is nonempty. -/
theorem splitChars_ne_nil (sep : Char) (l : List Char) : splitChars sep l ≠ [] := by
  cases l with
  | nil => simp [splitChars]
  | cons c cs =>
    simp only [splitChars]
    cases h : splitChars sep cs with
    | nil => simp
    | cons p ps =>
      by_cases hc : c = sep <;> simp [hc]

/-- A separator-free list splits into itself alone. -/
theorem splitChars_no_sep (sep : Char) (l : List Char) (h : sep ∉ l) :
    splitChars sep l = [l] := by
  induction l with
  | nil => rfl
  | cons c cs ih =>
    simp only [List.mem_cons, not_or] at h
    simp only [splitChars, ih h.2]
    rw [if_neg (fun hc => h.1 hc.symm)]

/-- Prepending a separator-free prefix extends the first piece of the
split. -/
theorem splitChars_append (sep : Char) (u l p : List Char) (ps : List (List Char))
    (hu : sep ∉ u) (hl : splitChars sep l = p :: ps) :
    splitChars sep (u ++ l) = (u ++ p) :: ps := by
  induction u with
  | nil => simpa using hl
  | cons c cs ih =>
    simp only [List.mem_cons, not_or] at hu
    simp only [List.cons_append, splitChars, List.append_eq, ih hu.2]
    rw [if_neg (fun hc => hu.1 hc.symm)]

/-- A list made of two separator-free parts around one separator splits
into exactly those two parts. -/
theorem splitChars_pair (sep : Char) (u d : List Char) (hu : sep ∉ u) (hd : sep ∉ d) :
    splitChars sep (u ++ sep :: d) = [u, d] := by
  have hsepd : splitChars sep (sep :: d) = [] :: [d] := by
    simp [splitChars, splitChars_no_sep sep d hd]
  have h2 := splitChars_append sep u (sep :: d) [] [d] hu hsepd
  simpa using h2

/-- The number of pieces of the split is the separator count plus one. -/
theorem splitChars_length (sep : Char) (l : List Char) :
    (splitChars sep l).length = l.count sep + 1 := by
  induction l with
  | nil => simp [splitChars]
  | cons c cs ih =>
    obtain ⟨p, ps, hps⟩ : ∃ p ps, splitChars sep cs = p :: ps := by
      cases h : splitChars sep cs with
      | nil => exact absurd h (splitChars_ne_nil sep cs)
      | cons p ps => exact ⟨p, ps, rfl⟩
    rw [hps] at ih
    simp only [List.length_cons] at ih
    simp only [splitChars, hps, List.count_cons]
    by_cases hc : c = sep
    · rw [if_pos hc, if_pos (by simp [hc] : (c == sep) = true)]
      simp only [List.length_cons]
      omega
    · rw [if_neg hc, if_neg (by simp [hc] : ¬((c == sep) = true))]
      simp only [List.length_cons]
      omega

/-- The length of the Python split of a string is its separator count
plus one. -/
theorem pySplit_length (sep : Char) (s : String) :
    (pySplit sep s).length = s.data.count sep + 1 := by
  simp [pySplit, splitChars_length]

/-- The Python split of `user ++ "@" ++ domain` with at-sign-free parts
is exactly `[user, domain]`. -/
theorem pySplit_addr (user domain : String)
    (hu : '@' ∉ user.data) (hd : '@' ∉ domain.data) :
    pySplit '@' (user ++ "@" ++ domain) = [user, domain] := by
  have hdata : (user ++ "@" ++ domain).data = user.data ++ '@' :: domain.data := by
    rw [sdata_append, sdata_append]
    show user.data ++ ['@'] ++ domain.data = _
    rw [List.append_assoc]
    simp
  simp only [pySplit, hdata, splitChars_pair '@' user.data domain.data hu hd, List.map]

/-! ### Status blindness of the CLI variant -/

/-- Rewrite every response status through `g`, leaving the body text
unchanged. -/
def mapStatus (g : Nat → Nat) (net : String → Except PyExc HttpResponse) :
    String → Except PyExc HttpResponse :=
  fun u =>
    match net u with
    | .error e => .error e
    | .ok r => .ok ⟨g r.status, r.text⟩

/-- The invoice step of the CLI script reads only the body text. -/
theorem cliInvoiceStep_mapStatus (g : Nat → Nat) (parse : String → Option Jobj)
    (net : String → Except PyExc HttpResponse) (lnaddress purl payquery : String)
    (mn mx : JVal) :
    cliInvoiceStep parse (mapStatus g net) lnaddress purl payquery mn mx =
      cliInvoiceStep parse net lnaddress purl payquery mn mx := by
  unfold cliInvoiceStep mapStatus
  cases h : net payquery with
  | error e => rfl
  | ok r => rfl

/-- The whole CLI pipeline reads only body texts, never a status. -/
theorem get_bolt11_mapStatus (g : Nat → Nat) (parse : String → Option Jobj)
    (net : String → Except PyExc HttpResponse) (lnaddress : String) (amount : Option Int) :
    get_bolt11 parse (mapStatus g net) lnaddress amount =
      get_bolt11 parse net lnaddress amount := by
  unfold get_bolt11
  cases get_payurl lnaddress with
  | errorDict m => rfl
  | url purl =>
    cases h : net purl with
    | error e => simp [mapStatus, h]
    | ok r =>
      simp only [mapStatus, h]
      cases parse r.text with
      | none => rfl
      | some datablock =>
        dsimp only
        cases jfind datablock "callback" with
        | none => rfl
        | some lnurlpay =>
          dsimp only
          cases jfind datablock "minSendable" with
          | none => rfl
          | some mn =>
            dsimp only
            cases jfind datablock "maxSendable" with
            | none => rfl
            | some mx =>
              dsimp only
              cases lnurlpay with
              | int n => rfl
              | str cbs =>
                dsimp only
                cases cliPayquery lnaddress cbs mn mx amount with
                | inl out => rfl
                | inr payquery =>
                  dsimp only
                  exact cliInvoiceStep_mapStatus g parse net lnaddress purl payquery mn mx

/-! ### When does each parser reject its input -/

/-- The CLI parser returns its error dictionary exactly for addresses
with no at sign. -/
theorem get_payurl_error_iff (addr : String) :
    ((∃ msg, get_payurl addr = .errorDict msg) ↔ addr.data.count '@' = 0) := by
  have hlen := pySplit_length '@' addr
  cases h : pySplit '@' addr with
  | nil =>
    rw [h] at hlen
    simp at hlen
  | cons p0 rest =>
    rw [h] at hlen
    cases rest with
    | nil =>
      have hval : get_payurl addr = .errorDict "Possibly a malformed LN Address" := by
        unfold get_payurl
        rw [h]
      simp only [List.length_cons, List.length_nil] at hlen
      constructor
      · intro _
        omega
      · intro _
        exact ⟨_, hval⟩
    | cons p1 rest2 =>
      have hval : get_payurl addr = .url ("https://" ++ p1 ++ "/.well-known/lnurlp/" ++ p0) := by
        unfold get_payurl
        rw [h]
      simp only [List.length_cons] at hlen
      constructor
      · rintro ⟨msg, hmsg⟩
        rw [hval] at hmsg
        exact absurd hmsg (by simp)
      · intro h0
        omega

/-- The tutorial parser returns `None` exactly for addresses whose at
sign count differs from one. -/
theorem build_lnurl_none_iff (addr : String) :
    (build_lnurl_pay_url addr = none ↔ addr.data.count '@' ≠ 1) := by
  have hlen := pySplit_length '@' addr
  cases h : pySplit '@' addr with
  | nil =>
    rw [h] at hlen
    simp at hlen
  | cons p0 rest =>
    rw [h] at hlen
    cases rest with
    | nil =>
      have hval : build_lnurl_pay_url addr = none := by
        unfold build_lnurl_pay_url
        rw [h]
      simp only [List.length_cons, List.length_nil] at hlen
      constructor
      · intro _
        omega
      · intro _
        exact hval
    | cons p1 rest2 =>
      cases rest2 with
      | nil =>
        have hval : build_lnurl_pay_url addr =
            some ("https://" ++ p1 ++ "/.well-known/lnurlp/" ++ p0) := by
          unfold build_lnurl_pay_url
          rw [h]
        simp only [List.length_cons, List.length_nil] at hlen
        constructor
        · intro hmsg
          rw [hval] at hmsg
          exact absurd hmsg (by simp)
        · intro h1
          exact absurd (by omega : addr.data.count '@' = 1) h1
      | cons p2 r3 =>
        have hval : build_lnurl_pay_url addr = none := by
          unfold build_lnurl_pay_url
          rw [h]
        simp only [List.length_cons] at hlen
        constructor
        · intro _
          omega
        · intro _
          exact hval

/-! ### Stage lemmas for the CLI pipeline -/

/-- Reaching the invoice request: when the address parses, the discovery
exchange succeeds with the three fields present and a string callback,
and the amount check passes, `get_bolt11` continues with the invoice
step. -/
theorem get_bolt11_stage (parse : String → Option Jobj)
    (net : String → Except PyExc HttpResponse) (lnaddress purl b1 payquery : String)
    (st1 : Nat) (disc : Jobj) (cbs : String) (mn mx : JVal) (amount : Option Int)
    (h1 : get_payurl lnaddress = .url purl)
    (h2 : net purl = .ok ⟨st1, b1⟩)
    (h3 : parse b1 = some disc)
    (h4 : jfind disc "callback" = some (.str cbs))
    (h5 : jfind disc "minSendable" = some mn)
    (h6 : jfind disc "maxSendable" = some mx)
    (h7 : cliPayquery lnaddress cbs mn mx amount = .inr payquery) :
    get_bolt11 parse net lnaddress amount =
      cliInvoiceStep parse net lnaddress purl payquery mn mx := by
  unfold get_bolt11
  rw [h1]
  dsimp only
  rw [h2]
  dsimp only
  rw [h3]
  dsimp only
  rw [h4]
  dsimp only
  rw [h5]
  dsimp only
  rw [h6]
  dsimp only
  rw [h7]

/-- The invoice step on a response whose object has a string `pr`
field: the uppercased invoice is returned. -/
theorem cliInvoiceStep_pr (parse : String → Option Jobj)
    (net : String → Except PyExc HttpResponse) (lnaddress purl payquery b2 : String)
    (st2 : Nat) (mn mx : JVal) (inv : Jobj) (s : String)
    (h8 : net payquery = .ok ⟨st2, b2⟩) (h9 : parse b2 = some inv)
    (h10 : jfind inv "pr" = some (.str s)) :
    cliInvoiceStep parse net lnaddress purl payquery mn mx =
      (.returns (.str (pyUpper s)), [purl, payquery]) := by
  unfold cliInvoiceStep
  rw [h8]
  dsimp only
  rw [h9]
  dsimp only
  rw [h10]

/-- The invoice step on a response whose object has no `pr` field but a
string `reason` field: the reason is returned as a bare string. -/
theorem cliInvoiceStep_reason (parse : String → Option Jobj)
    (net : String → Except PyExc HttpResponse) (lnaddress purl payquery b2 : String)
    (st2 : Nat) (mn mx : JVal) (inv : Jobj) (s : String)
    (h8 : net payquery = .ok ⟨st2, b2⟩) (h9 : parse b2 = some inv)
    (h10 : jfind inv "pr" = none) (h11 : jfind inv "reason" = some (.str s)) :
    cliInvoiceStep parse net lnaddress purl payquery mn mx =
      (.returns (.str s), [purl, payquery]) := by
  unfold cliInvoiceStep
  rw [h8]
  dsimp only
  rw [h9]
  dsimp only
  rw [h10]
  dsimp only
  rw [h11]

/-- The invoice step on a response whose object has neither a `pr` nor a
`reason` field: the function falls off its `if`/`elif` and returns
`None`. -/
theorem cliInvoiceStep_nofields (parse : String → Option Jobj)
    (net : String → Except PyExc HttpResponse) (lnaddress purl payquery b2 : String)
    (st2 : Nat) (mn mx : JVal) (inv : Jobj)
    (h8 : net payquery = .ok ⟨st2, b2⟩) (h9 : parse b2 = some inv)
    (h10 : jfind inv "pr" = none) (h11 : jfind inv "reason" = none) :
    cliInvoiceStep parse net lnaddress purl payquery mn mx =
      (.returns .noneV, [purl, payquery]) := by
  unfold cliInvoiceStep
  rw [h8]
  dsimp only
  rw [h9]
  dsimp only
  rw [h10]
  dsimp only
  rw [h11]

/-- The tutorial invoice step on a 200 response whose object has a
string `pr` field. -/
theorem genResult_pr (parse : String → Option Jobj) (b : String) (inv : Jobj) (s : String)
    (h1 : parse b = some inv) (h2 : jfind inv "pr" = some (.str s)) :
    genResult parse (.ok ⟨200, b⟩) = .someStr (pyUpper s) := by
  unfold genResult
  dsimp only
  rw [if_neg (fun h => h rfl)]
  rw [h1]
  dsimp only
  rw [h2]

/-- The tutorial invoice step on a 200 response whose object has no
`pr` field: `None` is returned both for a `reason` response and for an
unrecognized one. -/
theorem genResult_no_pr (parse : String → Option Jobj) (b : String) (inv : Jobj)
    (h1 : parse b = some inv) (h2 : jfind inv "pr" = none) :
    genResult parse (.ok ⟨200, b⟩) = .noneRet := by
  unfold genResult
  dsimp only
  rw [if_neg (fun h => h rfl)]
  rw [h1]
  dsimp only
  rw [h2]
  dsimp only
  cases jfind inv "reason" with
  | none => rfl
  | some v => rfl

/-- The tutorial discovery step on a non-200 response returns `None`. -/
theorem fetch_non200 (parse : String → Option Jobj)
    (net : String → Except PyExc HttpResponse) (u : String) (st : Nat) (b : String)
    (hnet : net u = .ok ⟨st, b⟩) (hst : st ≠ 200) :
    fetch_payment_parameters parse net u = (.noneRet, [u]) := by
  unfold fetch_payment_parameters fetchResult
  rw [hnet]
  dsimp only
  rw [if_pos hst]

/-! ### The claims -/

/-- Claim C1, counterexample: in the tutorial variant the amount
validation does NOT fail with AmountTooLow.  For amount 1 sat (1000
msats) and minSendable 2000 msats the request is silently raised to 2000
msats and the pipeline returns an invoice. -/
theorem C1_counterexample :
    generate_invoice pT nClamp (some (.str "https://svc/cb")) 1 2000 =
      (.someStr "LNBC1XYZ", ["https://svc/cb?amount=2000"]) := by decide

/-- Claim C1 (amended to the CLI variant, under the PaymentParameters
invariant minSendable ≤ maxSendable): the amount validation of
`get_bolt11` fails with the amount-too-low ValueError when
a*1000 < minSendable, with the amount-too-high ValueError when
a*1000 > maxSendable, and otherwise puts exactly a*1000 into the
invoice-request query.  The tutorial variant instead clamps, see the
counterexample and C9. -/
theorem C1_theorem (lnaddress cbs : String) (a m M : Int) (hmM : m ≤ M) :
    (a * 1000 < m →
      cliPayquery lnaddress cbs (.int m) (.int M) (some a) =
        .inl (cliHandler
          (.valueError
            "Amount is less than minimum sendable, you may pay in more than a single invoice")
          lnaddress (some (.int m)) (some (.int M))))
  ∧ (a * 1000 > M →
      cliPayquery lnaddress cbs (.int m) (.int M) (some a) =
        .inl (cliHandler (.valueError "Amount is more than maximum sendable")
          lnaddress (some (.int m)) (some (.int M))))
  ∧ (m ≤ a * 1000 → a * 1000 ≤ M →
      cliPayquery lnaddress cbs (.int m) (.int M) (some a) =
        .inr (cbs ++ "?amount=" ++ toString (a * 1000))) := by
  refine ⟨?_, ?_, ?_⟩
  · intro hlow
    unfold cliPayquery
    dsimp only
    rw [if_neg (by omega : ¬ a * 1000 > M)]
    dsimp only [pyInt]
    rw [if_neg (by omega : ¬ a * 1000 ≥ m)]
  · intro hhigh
    unfold cliPayquery
    dsimp only
    rw [if_pos hhigh]
  · intro hge hle
    unfold cliPayquery
    dsimp only
    rw [if_neg (by omega : ¬ a * 1000 > M)]
    dsimp only [pyInt]
    rw [if_pos (by omega : a * 1000 ≥ m)]

/-- Witness for C1: amount 5 sats against bounds [1000, 100000000] msats
passes through as exactly 5000 msats. -/
theorem C1_witness :
    cliPayquery "user@x.com" "https://svc/cb" (.int 1000) (.int 100000000) (some 5) =
      .inr ("https://svc/cb" ++ "?amount=" ++ toString ((5 : Int) * 1000)) :=
  ( C1_theorem "user@x.com" "https://svc/cb" 5 1000 100000000 (by decide)).2.2
    (by decide) (by decide)

/-- Claim C2, counterexample: `user@localhost` has no dot in its domain,
so it is malformed in the claim's sense, yet both parsers accept it and
the CLI pipeline issues the discovery request; and the CLI parser also
accepts `a@b@c.com` with two at signs. -/
theorem C2_counterexample :
    get_payurl "user@localhost" = .url "https://localhost/.well-known/lnurlp/user"
  ∧ build_lnurl_pay_url "user@localhost" = some "https://localhost/.well-known/lnurlp/user"
  ∧ (get_bolt11 pT n200Junk "user@localhost" none).2 =
      ["https://localhost/.well-known/lnurlp/user"]
  ∧ get_payurl "a@b@c.com" = .url "https://b/.well-known/lnurlp/a" := by decide

/-- Claim C2 (amended): parsing rejects only on at-sign grounds.  The
CLI parser fails exactly when the address contains no at sign, the
tutorial parser exactly when the at-sign count is not one, and in those
cases no URL reaches the transport; a domain without a dot, extra
at-sign parts (CLI) or empty parts are accepted and the discovery
request is issued (see the counterexample). -/
theorem C2_theorem (addr : String) :
    ((∃ msg, get_payurl addr = .errorDict msg) ↔ addr.data.count '@' = 0)
  ∧ (build_lnurl_pay_url addr = none ↔ addr.data.count '@' ≠ 1)
  ∧ (∀ parse net amount, addr.data.count '@' = 0 →
      (get_bolt11 parse net addr amount).2 = [])
  ∧ (∀ parse net amount, addr.data.count '@' ≠ 1 →
      (create_lightning_invoice parse net addr amount).2 = []) := by
  refine ⟨get_payurl_error_iff addr, build_lnurl_none_iff addr, ?_, ?_⟩
  · intro parse net amount h0
    obtain ⟨msg, hmsg⟩ := (get_payurl_error_iff addr).mpr h0
    unfold get_bolt11
    rw [hmsg]
  · intro parse net amount h1
    have hb := (build_lnurl_none_iff addr).mpr h1
    unfold create_lightning_invoice
    rw [hb]

/-- Witness for C2: with no at sign in the address the CLI pipeline
issues no request at all. -/
theorem C2_witness : (get_bolt11 pT nT "nodomain" (some 21)).2 = [] :=
  ( C2_theorem "nodomain").2.2.1 pT nT (some 21) (by decide)

/-- Claim C3, counterexample: in the CLI variant a discovery status of
404 does not produce a DiscoveryFailed error value — with a non-JSON 404
body the pipeline dies on an uncaught NameError, and with a well-formed
404 body it goes on to issue the invoice request. -/
theorem C3_counterexample :
    (get_bolt11 pT n404 "user@x.com" (some 5)).1 = .uncaught (.nameError "min_amount")
  ∧ (get_bolt11 pT n404Body "user@x.com" (some 5)).2 =
      ["https://x.com/.well-known/lnurlp/user", "https://svc/cb?amount=5000"] := by decide

/-- Claim C3 (amended): in the tutorial variant a non-success discovery
status makes the pipeline fail (return `None`) with no invoice request;
the CLI variant never inspects any HTTP status — its outcome is
invariant under arbitrary rewriting of response status codes — so a
non-success discovery response is processed purely by its body (see the
counterexample for the two possible endings). -/
theorem C3_theorem :
    (∀ parse net u st b, net u = .ok ⟨st, b⟩ → st ≠ 200 →
      fetch_payment_parameters parse net u = (.noneRet, [u]))
  ∧ (∀ parse net addr amount u st b,
      build_lnurl_pay_url addr = some u →
      net u = .ok ⟨st, b⟩ → st ≠ 200 →
      create_lightning_invoice parse net addr amount = (.noneRet, [u]))
  ∧ (∀ g parse net lnaddress amount,
      get_bolt11 parse (mapStatus g net) lnaddress amount =
        get_bolt11 parse net lnaddress amount) := by
  refine ⟨?_, ?_, ?_⟩
  · intro parse net u st b hnet hst
    exact fetch_non200 parse net u st b hnet hst
  · intro parse net addr amount u st b hb hnet hst
    unfold create_lightning_invoice
    rw [hb]
    dsimp only
    rw [fetch_non200 parse net u st b hnet hst]
  · intro g parse net lnaddress amount
    exact get_bolt11_mapStatus g parse net lnaddress amount

/-- Witness for C3: a 404 on discovery ends the tutorial pipeline with
`None` after the discovery request only. -/
theorem C3_witness :
    create_lightning_invoice pT n404 "user@x.com" 5 =
      (.noneRet, ["https://x.com/.well-known/lnurlp/user"]) :=
  C3_theorem.2.1 pT n404 "user@x.com" 5 "https://x.com/.well-known/lnurlp/user" 404
    "Not Found" (by decide) rfl (by decide)

/-- Claim C4 (a code bug): failures are NOT all converted into
user-facing messages.  In the CLI variant an early failure (here a
malformed address) reaches the `except` handler before
`min_amount`/`max_amount` were bound, and the handler itself raises
`NameError`, which escapes uncaught; in the tutorial variant a 200
discovery response with a non-JSON body makes `json.loads` raise
uncaught, there being no handler at all. -/
theorem C4_theorem :
    (get_bolt11 pT nT "nodomain" (some 21)).1 = .uncaught (.nameError "min_amount")
  ∧ (fetch_payment_parameters pT n200Junk "https://x.com/.well-known/lnurlp/user").1 =
      .uncaught .jsonDecodeError := by decide

/-- Claim C5 (confirmed): whenever the invoice response is a JSON object
with a string field `pr = s`, the CLI pipeline returns the uppercased
`s`, and so does the tutorial's invoice step — both case-normalize the
BOLT11 string to uppercase. -/
theorem C5_theorem :
    (∀ parse net lnaddress amount purl b1 payquery b2 st1 st2 disc inv cbs mn mx s,
      get_payurl lnaddress = .url purl →
      net purl = .ok ⟨st1, b1⟩ →
      parse b1 = some disc →
      jfind disc "callback" = some (.str cbs) →
      jfind disc "minSendable" = some mn →
      jfind disc "maxSendable" = some mx →
      cliPayquery lnaddress cbs mn mx amount = .inr payquery →
      net payquery = .ok ⟨st2, b2⟩ →
      parse b2 = some inv →
      jfind inv "pr" = some (.str s) →
      (get_bolt11 parse net lnaddress amount).1 = .returns (.str (pyUpper s)))
  ∧ (∀ parse net callback_url amount_sats min_sendable b inv s,
      net (fstr callback_url ++ "?amount=" ++
        toString (max (amount_sats * 1000) min_sendable)) = .ok ⟨200, b⟩ →
      parse b = some inv →
      jfind inv "pr" = some (.str s) →
      (generate_invoice parse net callback_url amount_sats min_sendable).1 =
        .someStr (pyUpper s)) := by
  constructor
  · intro parse net lnaddress amount purl b1 payquery b2 st1 st2 disc inv cbs mn mx s
      h1 h2 h3 h4 h5 h6 h7 h8 h9 h10
    rw [get_bolt11_stage parse net lnaddress purl b1 payquery st1 disc cbs mn mx amount
          h1 h2 h3 h4 h5 h6 h7,
        cliInvoiceStep_pr parse net lnaddress purl payquery b2 st2 mn mx inv s h8 h9 h10]
  · intro parse net callback_url amount_sats min_sendable b inv s hnet hp hpr
    unfold generate_invoice
    dsimp only
    rw [hnet, genResult_pr parse b inv s hp hpr]

/-- Witness for C5: a concrete run of both variants upper-casing the
invoice string `lnbc1xyz` to `LNBC1XYZ`. -/
theorem C5_witness :
    (get_bolt11 pT nT "user@x.com" (some 5)).1 = .returns (.str "LNBC1XYZ")
  ∧ (generate_invoice pT nT (some (.str "https://svc/cb")) 5 1000).1 =
      .someStr "LNBC1XYZ" := by
  have h1 := C5_theorem.1 pT nT "user@x.com" (some 5)
    "https://x.com/.well-known/lnurlp/user" "DISCBODY" "https://svc/cb?amount=5000"
    "INVBODY" 200 200
    [("callback", .str "https://svc/cb"), ("minSendable", .int 1000),
      ("maxSendable", .int 100000000)]
    [("pr", .str "lnbc1xyz")] "https://svc/cb" (.int 1000) (.int 100000000) "lnbc1xyz"
    (by decide) rfl (by decide) (by decide) (by decide) (by decide) (by decide)
    rfl (by decide) (by decide)
  have h2 := C5_theorem.2 pT nT (some (.str "https://svc/cb")) 5 1000 "INVBODY"
    [("pr", .str "lnbc1xyz")] "lnbc1xyz" rfl (by decide) (by decide)
  exact ⟨h1.trans (by decide), h2.trans (by decide)⟩

/-- Claim C6, counterexample: in the tutorial variant a reason-only
invoice response makes the pipeline return `None` — the rejection value
handed back to the caller does not contain the reason string
`rejected` (the reason is only printed). -/
theorem C6_counterexample :
    generate_invoice pT nReason (some (.str "https://svc/cb")) 5 1000 =
      (.noneRet, ["https://svc/cb?amount=5000"]) := by decide

/-- Claim C6 (amended): neither variant raises a fault on a reason-only
invoice response; the CLI variant returns the reason string itself as a
plain value, while the tutorial variant prints the reason and returns
`None`, a rejection value that does not contain the reason string. -/
theorem C6_theorem :
    (∀ parse net lnaddress purl payquery st b mn mx inv s,
      net payquery = .ok ⟨st, b⟩ →
      parse b = some inv →
      jfind inv "pr" = none →
      jfind inv "reason" = some (.str s) →
      (cliInvoiceStep parse net lnaddress purl payquery mn mx).1 = .returns (.str s))
  ∧ (∀ parse net callback_url amount_sats min_sendable b inv s,
      net (fstr callback_url ++ "?amount=" ++
        toString (max (amount_sats * 1000) min_sendable)) = .ok ⟨200, b⟩ →
      parse b = some inv →
      jfind inv "pr" = none →
      jfind inv "reason" = some (.str s) →
      (generate_invoice parse net callback_url amount_sats min_sendable).1 = .noneRet) := by
  constructor
  · intro parse net lnaddress purl payquery st b mn mx inv s h8 h9 h10 h11
    rw [cliInvoiceStep_reason parse net lnaddress purl payquery b st mn mx inv s h8 h9 h10 h11]
  · intro parse net callback_url amount_sats min_sendable b inv s hnet hp hpr hre
    unfold generate_invoice
    dsimp only
    rw [hnet, genResult_no_pr parse b inv hp hpr]

/-- Witness for C6: a concrete reason-only exchange — the CLI step
returns the bare string, the tutorial step returns `None`. -/
theorem C6_witness :
    (cliInvoiceStep pT nReason "user@x.com" "https://x.com/.well-known/lnurlp/user"
      "https://svc/cb?amount=5000" (.int 1000) (.int 100000000)).1 = .returns (.str "rejected")
  ∧ (generate_invoice pT nReason (some (.str "https://svc/cb")) 5 1000).1 = .noneRet :=
  ⟨C6_theorem.1 pT nReason "user@x.com" "https://x.com/.well-known/lnurlp/user"
      "https://svc/cb?amount=5000" 200 "REASONBODY" (.int 1000) (.int 100000000)
      [("reason", .str "rejected")] "rejected" rfl (by decide) (by decide) (by decide),
    C6_theorem.2 pT nReason (some (.str "https://svc/cb")) 5 1000 "REASONBODY"
      [("reason", .str "rejected")] "rejected" rfl (by decide) (by decide) (by decide)⟩

/-- Claim C7 (confirmed): an invoice response carrying neither `pr` nor
`reason` makes both variants end with their `None` failure value — the
spec's UnexpectedResponseFormat outcome (the tutorial also prints the
corresponding message; the CLI falls off its `if`/`elif` and returns
`None`). -/
theorem C7_theorem :
    (∀ parse net lnaddress amount purl b1 payquery b2 st1 st2 disc inv cbs mn mx,
      get_payurl lnaddress = .url purl →
      net purl = .ok ⟨st1, b1⟩ →
      parse b1 = some disc →
      jfind disc "callback" = some (.str cbs) →
      jfind disc "minSendable" = some mn →
      jfind disc "maxSendable" = some mx →
      cliPayquery lnaddress cbs mn mx amount = .inr payquery →
      net payquery = .ok ⟨st2, b2⟩ →
      parse b2 = some inv →
      jfind inv "pr" = none →
      jfind inv "reason" = none →
      (get_bolt11 parse net lnaddress amount).1 = .returns .noneV)
  ∧ (∀ parse net callback_url amount_sats min_sendable b inv,
      net (fstr callback_url ++ "?amount=" ++
        toString (max (amount_sats * 1000) min_sendable)) = .ok ⟨200, b⟩ →
      parse b = some inv →
      jfind inv "pr" = none →
      jfind inv "reason" = none →
      (generate_invoice parse net callback_url amount_sats min_sendable).1 = .noneRet) := by
  constructor
  · intro parse net lnaddress amount purl b1 payquery b2 st1 st2 disc inv cbs mn mx
      h1 h2 h3 h4 h5 h6 h7 h8 h9 h10 h11
    rw [get_bolt11_stage parse net lnaddress purl b1 payquery st1 disc cbs mn mx amount
          h1 h2 h3 h4 h5 h6 h7,
        cliInvoiceStep_nofields parse net lnaddress purl payquery b2 st2 mn mx inv h8 h9 h10 h11]
  · intro parse net callback_url amount_sats min_sendable b inv hnet hp hpr hre
    unfold generate_invoice
    dsimp only
    rw [hnet, genResult_no_pr parse b inv hp hpr]

/-- Witness for C7: a concrete empty-object invoice response ends the
CLI pipeline with `None` and the tutorial step with `None`. -/
theorem C7_witness :
    (get_bolt11 pT nEmptyInv "user@x.com" (some 5)).1 = .returns .noneV
  ∧ (generate_invoice pT nEmptyInv (some (.str "https://svc/cb")) 5 1000).1 = .noneRet :=
  ⟨C7_theorem.1 pT nEmptyInv "user@x.com" (some 5)
      "https://x.com/.well-known/lnurlp/user" "DISCBODY" "https://svc/cb?amount=5000"
      "EMPTYBODY" 200 200
      [("callback", .str "https://svc/cb"), ("minSendable", .int 1000),
        ("maxSendable", .int 100000000)]
      [] "https://svc/cb" (.int 1000) (.int 100000000)
      (by decide) rfl (by decide) (by decide) (by decide) (by decide) (by decide)
      rfl (by decide) (by decide) (by decide),
    C7_theorem.2 pT nEmptyInv (some (.str "https://svc/cb")) 5 1000 "EMPTYBODY" []
      rfl (by decide) (by decide) (by decide)⟩

/-- Claim C8 (confirmed): for a well-formed address — at-sign-free
non-empty user and domain parts, one at sign, a dot in the domain — both
variants derive exactly the discovery URL
`https://domain/.well-known/lnurlp/user`. -/
theorem C8_theorem (user domain : String)
    (hu : '@' ∉ user.data) (hd : '@' ∉ domain.data)
    (_hu0 : user ≠ "") (_hd0 : domain ≠ "") (_hdot : '.' ∈ domain.data) :
    get_payurl (user ++ "@" ++ domain) =
      .url ("https://" ++ domain ++ "/.well-known/lnurlp/" ++ user)
  ∧ build_lnurl_pay_url (user ++ "@" ++ domain) =
      some ("https://" ++ domain ++ "/.well-known/lnurlp/" ++ user) := by
  have hs := pySplit_addr user domain hu hd
  constructor
  · unfold get_payurl
    rw [hs]
  · unfold build_lnurl_pay_url
    rw [hs]

/-- Witness for C8: the address `satoshi@bitcoin.org`. -/
theorem C8_witness :
    get_payurl ("satoshi" ++ "@" ++ "bitcoin.org") =
      .url ("https://" ++ "bitcoin.org" ++ "/.well-known/lnurlp/" ++ "satoshi")
  ∧ build_lnurl_pay_url ("satoshi" ++ "@" ++ "bitcoin.org") =
      some ("https://" ++ "bitcoin.org" ++ "/.well-known/lnurlp/" ++ "satoshi") :=
  C8_theorem "satoshi" "bitcoin.org" (by decide) (by decide) (by decide) (by decide)
    (by decide)

/-- Claim C9 (confirmed): the tutorial's `generate_invoice` always
issues exactly one request, whose amount parameter is
`max(amount_sats * 1000, min_sendable)` — a too-low request is silently
raised to the minimum, and `maxSendable` is not even among the
function's inputs, so it is never compared. -/
theorem C9_theorem (parse : String → Option Jobj)
    (net : String → Except PyExc HttpResponse) (callback_url : Option JVal)
    (amount_sats min_sendable : Int) :
    (generate_invoice parse net callback_url amount_sats min_sendable).2 =
      [fstr callback_url ++ "?amount=" ++
        toString (max (amount_sats * 1000) min_sendable)] := rfl

/-- Claim C10 (confirmed): in the CLI variant a reason-only invoice
response makes `get_bolt11` return the reason with the same `PyRet.str`
shape as a successful uppercased invoice — a caller inspecting the
returned value cannot tell a service rejection from an invoice. -/
theorem C10_theorem :
    ∀ parse net lnaddress amount purl b1 payquery b2 st1 st2 disc inv cbs mn mx s,
      get_payurl lnaddress = .url purl →
      net purl = .ok ⟨st1, b1⟩ →
      parse b1 = some disc →
      jfind disc "callback" = some (.str cbs) →
      jfind disc "minSendable" = some mn →
      jfind disc "maxSendable" = some mx →
      cliPayquery lnaddress cbs mn mx amount = .inr payquery →
      net payquery = .ok ⟨st2, b2⟩ →
      parse b2 = some inv →
      jfind inv "pr" = none →
      jfind inv "reason" = some (.str s) →
      (get_bolt11 parse net lnaddress amount).1 = .returns (.str s) := by
  intro parse net lnaddress amount purl b1 payquery b2 st1 st2 disc inv cbs mn mx s
    h1 h2 h3 h4 h5 h6 h7 h8 h9 h10 h11
  rw [get_bolt11_stage parse net lnaddress purl b1 payquery st1 disc cbs mn mx amount
        h1 h2 h3 h4 h5 h6 h7,
      cliInvoiceStep_reason parse net lnaddress purl payquery b2 st2 mn mx inv s h8 h9 h10 h11]

/-- Witness for C10: a rejection whose reason reads `LNBC1XYZ` produces
the very same return value `PyRet.str "LNBC1XYZ"` as the successful
invoice run of the C5 scenario. -/
theorem C10_witness :
    (get_bolt11 pT nUpReason "user@x.com" (some 5)).1 = .returns (.str "LNBC1XYZ") :=
  C10_theorem pT nUpReason "user@x.com" (some 5)
    "https://x.com/.well-known/lnurlp/user" "DISCBODY" "https://svc/cb?amount=5000"
    "UPREASONBODY" 200 200
    [("callback", .str "https://svc/cb"), ("minSendable", .int 1000),
      ("maxSendable", .int 100000000)]
    [("reason", .str "LNBC1XYZ")] "https://svc/cb" (.int 1000) (.int 100000000) "LNBC1XYZ"
    (by decide) rfl (by decide) (by decide) (by decide) (by decide) (by decide)
    rfl (by decide) (by decide) (by decide)

end LnAddr
